import Mathlib

/-!
Shallow embedding of the scripted advisor / quiz chat engine of the
Personal-Finance-AI-Chatbot repository (frontend/src/components/ChatInterface.jsx)
and of the mock analytics generator (the AIAnalytics component).

JavaScript strings are modelled as Lean `String`; `String.prototype.includes`,
`toLowerCase` and `trim` are modelled as structurally recursive functions on
the underlying character lists (they agree with the JS methods on the inputs
the component handles, in particular on all ASCII text).
-/

namespace PFChat

/-- `pat` is a prefix of `l` (on character lists). -/
def charsPrefixOf : List Char → List Char → Bool
  | [], _ => true
  | _ :: _, [] => false
  | a :: pa, b :: lb => a == b && charsPrefixOf pa lb

/-- `pat` occurs as a contiguous run inside `l` (on character lists). -/
def charsContains (pat : List Char) : List Char → Bool
  | [] => charsPrefixOf pat []
  | b :: lb => charsPrefixOf pat (b :: lb) || charsContains pat lb

/-- JS `s.includes(pat)`: `pat` occurs as a contiguous substring of `s`. -/
def includes (s pat : String) : Bool :=
  charsContains pat.data s.data

/-- JS `s.toLowerCase()`, character by character (agrees with it on the ASCII
keywords the rule table tests for). -/
def toLowerString (s : String) : String :=
  String.mk (s.data.map Char.toLower)

/-- A character JS `trim()` strips: space, tab, line and carriage return. -/
def isTrimmedChar (c : Char) : Bool :=
  c == ' ' || c == '\t' || c == '\n' || c == '\r'

/-- JS `s.trim()`: strip leading and trailing whitespace. -/
def trimString (s : String) : String :=
  String.mk (((s.data.dropWhile isTrimmedChar).reverse.dropWhile isTrimmedChar).reverse)

/- Response templates, verbatim from `generateAIResponse`
   (ChatInterface.jsx lines 251-277). -/

def savingsTemplate : String :=
  "💡 **Savings Strategy**:\n\n1. **Emergency Fund First**: Aim for 3-6 months of expenses\n2. **Automate Savings**: Set up automatic transfers\n3. **50/30/20 Rule**: 20% of income to savings\n4. **High-Yield Account**: Use accounts with better interest rates\n5. **Track Progress**: Monitor your savings goals regularly\n\nWhat specific savings goal are you working towards?"

def budgetTemplate : String :=
  "📊 **Budgeting Tips**:\n\n1. **Track Everything**: Use apps or spreadsheets\n2. **Categorize Expenses**: Needs vs. Wants vs. Savings\n3. **Set Realistic Goals**: Start small and build up\n4. **Review Monthly**: Adjust your budget as needed\n5. **Use Envelope Method**: Allocate cash for different categories\n\nWould you like me to help you create a specific budget plan?"

def investTemplate : String :=
  "📈 **Investment Basics**:\n\n1. **Start Early**: Time is your biggest advantage\n2. **Diversify**: Don\x27t put all eggs in one basket\n3. **Index Funds**: Low-cost, broad market exposure\n4. **Risk Tolerance**: Match investments to your comfort level\n5. **Long-term Focus**: Avoid trying to time the market\n\nWhat\x27s your investment timeline and risk tolerance?"

def debtTemplate : String :=
  "💳 **Debt Management**:\n\n1. **High-Interest First**: Pay off credit cards first\n2. **Debt Snowball**: Start with smallest debts\n3. **Consolidation**: Consider combining multiple debts\n4. **Avoid New Debt**: Stop adding to existing balances\n5. **Seek Help**: Consider credit counseling if needed\n\nWhat type of debt are you dealing with?"

def retirementTemplate : String :=
  "🏖️ **Retirement Planning**:\n\n1. **Start Now**: Even small amounts add up over time\n2. **Employer Match**: Contribute enough to get full match\n3. **Roth vs Traditional**: Consider tax implications\n4. **Increase Contributions**: Aim for 15% of income\n5. **Diversify**: Mix of stocks, bonds, and other assets\n\nHow many years until you plan to retire?"

def fallbackTemplate : String :=
  "Thanks for your message! I\x27m here to help with all things finance. You can:\n\n• Ask me specific financial questions\n• Take the financial quiz to test your knowledge\n• Get personalized advice for your situation\n• Create a savings plan\n• Get help with budgeting\n\nWhat would you like to focus on?"

/-- `generateAIResponse` (ChatInterface.jsx lines 251-277): lower-case the
message, then an if-chain of substring tests in source order, falling through
to the default response.  The source function is `async` but contains no
awaited rejection and no throwing operation, so it is modelled as the pure
string function it computes. -/
def generateAIResponse (message : String) : String :=
  let lowerMessage := toLowerString message
  if includes lowerMessage "savings" || includes lowerMessage "save" then
    savingsTemplate
  else if includes lowerMessage "budget" || includes lowerMessage "spending" then
    budgetTemplate
  else if includes lowerMessage "invest" || includes lowerMessage "investment" then
    investTemplate
  else if includes lowerMessage "debt" || includes lowerMessage "credit" then
    debtTemplate
  else if includes lowerMessage "retirement" || includes lowerMessage "401k" then
    retirementTemplate
  else
    fallbackTemplate

/-- A (keyword set, template) pair of the spec\x27s ResponseRule table (spec section 3). -/
structure ResponseRule where
  keywords : List String
  template : String

/-- The ResponseRule table in declaration order, read off the if-chain of
`generateAIResponse`. -/
def responseRules : List ResponseRule :=
  [⟨["savings", "save"], savingsTemplate⟩,
   ⟨["budget", "spending"], budgetTemplate⟩,
   ⟨["invest", "investment"], investTemplate⟩,
   ⟨["debt", "credit"], debtTemplate⟩,
   ⟨["retirement", "401k"], retirementTemplate⟩]

/-- First-match scan of a rule table, following the spec\x27s words (section 4.1):
return the template of the first rule one of whose keywords occurs as a
substring of the text; fall through to the fallback template. -/
def firstMatch (text : String) : List ResponseRule → String
  | [] => fallbackTemplate
  | r :: rs =>
      if r.keywords.any (fun kw => includes text kw) then r.template
      else firstMatch text rs

/-- The spec\x27s `handleUserMessage` response algorithm (section 4.1): lower-case
the input, scan the ResponseRule table in declaration order, first match wins,
fallback otherwise.  Written from the spec\x27s words, to be compared with the
source function `generateAIResponse`. -/
def handleUserMessageSpec (text : String) : String :=
  firstMatch (toLowerString text) responseRules

/- The quiz bank (ChatInterface.jsx lines 41-102). -/

/-- One entry of `quizQuestions`. -/
structure QuizQuestion where
  id : Nat
  question : String
  options : List String
  correct : Nat
  explanation : String
deriving DecidableEq

def quizQuestions : List QuizQuestion :=
  [⟨1, "What is the 50/30/20 rule for budgeting?",
    ["50% needs, 30% wants, 20% savings",
     "50% savings, 30% needs, 20% wants",
     "50% wants, 30% savings, 20% needs",
     "50% bills, 30% food, 20% entertainment"],
    0,
    "The 50/30/20 rule suggests allocating 50% of income to needs, 30% to wants, and 20% to savings and debt repayment."⟩,
   ⟨2, "What is compound interest?",
    ["Interest earned only on the principal amount",
     "Interest earned on both principal and accumulated interest",
     "A type of bank fee",
     "A loan payment method"],
    1,
    "Compound interest is interest earned on both the initial principal and the accumulated interest from previous periods."⟩,
   ⟨3, "What is an emergency fund?",
    ["Money for vacations",
     "3-6 months of living expenses saved for emergencies",
     "Investment portfolio",
     "Credit card balance"],
    1,
    "An emergency fund should cover 3-6 months of living expenses for unexpected situations like job loss or medical emergencies."⟩,
   ⟨4, "What is diversification in investing?",
    ["Putting all money in one stock",
     "Spreading investments across different assets",
     "Selling all investments",
     "Borrowing money to invest"],
    1,
    "Diversification means spreading investments across different asset classes to reduce risk."⟩,
   ⟨5, "What is a credit score?",
    ["Your bank account balance",
     "A number that represents your creditworthiness",
     "Your monthly income",
     "Your tax return amount"],
    1,
    "A credit score is a number that lenders use to assess your creditworthiness and likelihood of repaying loans."⟩]

/-- Placeholder returned by `List.getD` where the JS code would read out of
bounds (`questions[i]` with `i` past the end); unreachable from any reachable
component state, supplied only to keep the embedding total. -/
def dummyQuestion : QuizQuestion := ⟨0, "", [], 0, ""⟩

/- Chat component state (ChatInterface.jsx lines 8-30). -/

/-- One chat message as built by the component: `id` and `timestamp` both come
from the clock (`Date.now()` / `new Date()`) except for the two greeting
messages whose ids are the literals 1 and 2. -/
structure Message where
  id : Nat
  type : String
  content : String
  timestamp : Nat
  sender : String
deriving DecidableEq

/-- The `currentQuiz` object built by `startQuiz` (lines 163-171). -/
structure CurrentQuiz where
  currentQuestion : Nat
  questions : List QuizQuestion
  answers : List Nat
deriving DecidableEq

/-- The component state hooks of `ChatInterface`: `messages`, `currentQuiz`,
`quizScore`, the `showQuizResults` flag, `activeMode`.  (`inputMessage` is the
text box content, passed as the argument of `handleSendMessage` here;
`isLoading` is set and cleared inside the same handler invocation, so at rest
it is `false` and is omitted from the state.) -/
structure ChatState where
  messages : List Message
  currentQuiz : Option CurrentQuiz
  quizScore : Nat
  showResults : Bool
  activeMode : String
deriving DecidableEq

def greeting1 : String := "Hi! I\x27m Sam, your AI Financial Advisor! 🎯"

def greeting2 : String :=
  "I can help you with:\n• 📊 Financial Quizzes & Knowledge\n• 💡 Personalized Financial Advice\n• 🎯 Savings Plans & Goals\n• 📈 Investment Strategies\n• 💰 Budget Planning\n\nWhat would you like to explore today?"

/-- The two greeting messages (ids 1 and 2), created at load / reset time
`t0`. -/
def initialMessages (t0 : Nat) : List Message :=
  [⟨1, "bot", greeting1, t0, "Sam"⟩, ⟨2, "bot", greeting2, t0, "Sam"⟩]

/-- Component state right after mount at clock time `t0`. -/
def initState (t0 : Nat) : ChatState :=
  { messages := initialMessages t0
    currentQuiz := none
    quizScore := 0
    showResults := false
    activeMode := "chat" }

/-- `addMessage` (lines 279-288): append a message whose id and timestamp are
the current clock reading `now` (`Date.now()` / `new Date()`). -/
def addMessage (st : ChatState) (text sender name : String) (now : Nat) : ChatState :=
  { st with messages := st.messages ++ [⟨now, sender, text, now, name⟩] }

/-- `startQuiz` (lines 163-171). -/
def startQuiz (st : ChatState) : ChatState :=
  { st with
    currentQuiz := some ⟨0, quizQuestions, []⟩
    quizScore := 0
    showResults := false }

/- The quiz summary (`showQuizResults`, lines 206-221). -/

def expertTierText : String :=
  "\n\n🏆 You\x27re a financial expert! Keep up the great work and continue learning about personal finance."

def intermediateTierText : String :=
  "\n\n📚 You have a solid foundation. Let\x27s work on improving your knowledge together!"

def beginnerTierText : String :=
  "\n\n💡 Don\x27t worry - financial literacy is a journey. I\x27m here to help you learn and grow!"

/-- The tier-dependent opening of the three summary branches. -/
def tierOpening (percentage : Nat) : String :=
  if percentage ≥ 80 then "🎉 Congratulations! "
  else if percentage ≥ 60 then "👍 Good job! "
  else "📖 Nice effort! "

/-- The tier-dependent closing of the three summary branches, the branch
structure of `showQuizResults` as a function of the percentage alone. -/
def tierText (percentage : Nat) : String :=
  if percentage ≥ 80 then expertTierText
  else if percentage ≥ 60 then intermediateTierText
  else beginnerTierText

/-- The `You scored S/N (P%)` fragment common to the three branches. -/
def scoreText (quizScore percentage : Nat) : String :=
  "You scored " ++ toString quizScore ++ "/" ++ toString quizQuestions.length
    ++ " (" ++ toString percentage ++ "%)"

/-- The summary message assembled by `showQuizResults` (lines 206-218) from a
score value.  The source computes `(quizScore / questions.length) * 100` in JS
float arithmetic; for the 5-question bank this is exact and equals the natural
number `quizScore * 100 / 5` (a multiple of 20), which is what `${percentage}`
renders.  The three source branches share their skeleton and differ in opening
and closing text, factored here as `tierOpening` and `tierText`. -/
def resultMessage (quizScore : Nat) : String :=
  let percentage := quizScore * 100 / quizQuestions.length
  tierOpening percentage ++ scoreText quizScore percentage ++ tierText percentage

/-- The `showQuizResults` procedure (lines 206-221) as seen by a render whose
`quizScore` value is `scoreSeen`: append the summary built from `scoreSeen`,
set the results flag, clear the active quiz.  (The function reads `quizScore`
from its defining render\x27s scope, so the value it sees is the one current in
that render, not necessarily the latest state — see `handleQuizAnswer`.) -/
def showResultsStep (st : ChatState) (scoreSeen : Nat) (now : Nat) : ChatState :=
  let st1 := addMessage st (resultMessage scoreSeen) "bot" "Sam" now
  { st1 with showResults := true, currentQuiz := none }

/-- The explanation message emitted for one answered question (line 184).
An out-of-range `answerIndex` would render JS `undefined`; the UI only emits
indices of rendered options, 0-3. -/
def answerExplanation (q : QuizQuestion) (answerIndex : Nat) (isCorrect : Bool) : String :=
  "Your answer: " ++ q.options.getD answerIndex "undefined" ++ "\n\n"
    ++ (if isCorrect then "✅ Correct!" else "❌ Incorrect!") ++ "\n\n" ++ q.explanation

/-- `handleQuizAnswer` (lines 173-204), one answer-submission event together
with the delayed callback it schedules, taken as one atomic step.  `tExpl` is
the clock at the explanation message, `tNext` at the delayed follow-up message
(2000 ms later).

The `setTimeout` callbacks close over the bindings of the render in which the
click was handled, so they read the state values from before this event\x27s
updates: the next-question branch reads the pre-advance `currentQuiz` and
compensates with `+ 1` / `+ 2`; the completion branch invokes the
`showQuizResults` closure of that render, which therefore reads the
`quizScore` value from before this answer\x27s increment (`st.quizScore`), while
the state setters it calls act on the live state (whose score is `score1`). -/
def handleQuizAnswer (st : ChatState) (answerIndex : Nat) (tExpl tNext : Nat) : ChatState :=
  match st.currentQuiz with
  | none => st
  | some cq =>
    let question := cq.questions.getD cq.currentQuestion dummyQuestion
    let isCorrect := answerIndex == question.correct
    let score1 := if isCorrect then st.quizScore + 1 else st.quizScore
    let st1 := addMessage { st with quizScore := score1 }
      (answerExplanation question answerIndex isCorrect) "bot" "Sam" tExpl
    if cq.currentQuestion < cq.questions.length - 1 then
      let st2 := { st1 with currentQuiz := some { cq with currentQuestion := cq.currentQuestion + 1 } }
      let nextQuestion := cq.questions.getD (cq.currentQuestion + 1) dummyQuestion
      addMessage st2 ("Question " ++ toString (cq.currentQuestion + 2) ++ ": " ++ nextQuestion.question)
        "bot" "Sam" tNext
    else
      showResultsStep st1 st.quizScore tNext

/-- `handleSendMessage` (lines 223-249) with the clock readings `tUser` (user
message) and `tBot` (advisor reply): guard on empty trimmed input, append the
user message, append the reply computed by `generateAIResponse` from the
trimmed input.  (`generateAIResponse` contains no throwing operation, so the
`catch` branch of the source is unreachable; `isLoading` is cleared again
before the handler returns.) -/
def handleSendMessage (st : ChatState) (inputMessage : String) (tUser tBot : Nat) : ChatState :=
  if trimString inputMessage = "" then st
  else
    let userMessage : Message := ⟨tUser, "user", trimString inputMessage, tUser, "You"⟩
    let st1 := { st with messages := st.messages ++ [userMessage] }
    let response := generateAIResponse (trimString inputMessage)
    addMessage st1 response "bot" "Sam" tBot

/-- `handleQuickAction` (lines 136-161): set the mode, clear any quiz state,
start a fresh quiz for the `quiz` action, then append the mode\x27s message. -/
def handleQuickAction (st : ChatState) (actionId : String) (now : Nat) : ChatState :=
  let st0 := { st with activeMode := actionId, currentQuiz := none, showResults := false }
  let message :=
    if actionId = "quiz" then
      "Great choice! Let\x27s test your financial knowledge. I\x27ll ask you 5 questions about personal finance. Ready to start?"
    else if actionId = "advice" then
      "I\x27d love to give you personalized financial advice! Tell me about your current financial situation, goals, or any specific concerns you have."
    else if actionId = "savings" then
      "Excellent! Let\x27s create a personalized savings plan. First, tell me about your current savings, income, and what you\x27re saving for (emergency fund, vacation, house, retirement, etc.)."
    else if actionId = "budget" then
      "Budgeting is key to financial success! Share your monthly income and expenses, and I\x27ll help you create a realistic budget plan."
    else "How can I help you today?"
  let st1 := if actionId = "quiz" then startQuiz st0 else st0
  addMessage st1 message "bot" "Sam" now

/-- `resetChat` (lines 303-323): fresh greeting messages, no quiz, chat mode.
(The source does not reset `quizScore`.) -/
def resetChat (st : ChatState) (now : Nat) : ChatState :=
  { st with
    messages := initialMessages now
    currentQuiz := none
    showResults := false
    activeMode := "chat" }

/-- The states the component can reach from mount through its event handlers
(clicks, submits and their scheduled callbacks, with arbitrary clock values). -/
inductive Reachable : ChatState → Prop where
  | init (t0 : Nat) : Reachable (initState t0)
  | send (st : ChatState) (m : String) (t1 t2 : Nat) :
      Reachable st → Reachable (handleSendMessage st m t1 t2)
  | quick (st : ChatState) (a : String) (t : Nat) :
      Reachable st → Reachable (handleQuickAction st a t)
  | answer (st : ChatState) (i t1 t2 : Nat) :
      Reachable st → Reachable (handleQuizAnswer st i t1 t2)
  | reset (st : ChatState) (t : Nat) :
      Reachable st → Reachable (resetChat st t)

/-- A sequence of answer submissions, each with its two clock readings. -/
def runQuiz (st : ChatState) (answers : List (Nat × Nat × Nat)) : ChatState :=
  answers.foldl (fun s a => handleQuizAnswer s a.1 a.2.1 a.2.2) st

/-- Abstraction to the spec\x27s session state machine (spec sections 3, 4.2):
the question index of the current session, where a completed session (results
shown, no active quiz) sits at index = question count and no session sits
at 0. -/
def sessionIndex (st : ChatState) : Nat :=
  match st.currentQuiz with
  | some cq => cq.currentQuestion
  | none => if st.showResults then quizQuestions.length else 0

/- A whole session as a sequence of user-interaction events, each carrying the
`Date.now()` clock readings its handler takes. -/

/-- One user-interaction event of the chat component. -/
inductive ChatEvent where
  | send (m : String) (tUser tBot : Nat)
  | quick (actionId : String) (t : Nat)
  | answer (i tExpl tNext : Nat)
  | reset (t : Nat)
deriving DecidableEq

/-- Dispatch one event to its handler. -/
def stepChat (st : ChatState) : ChatEvent → ChatState
  | ChatEvent.send m t1 t2 => handleSendMessage st m t1 t2
  | ChatEvent.quick a t => handleQuickAction st a t
  | ChatEvent.answer i t1 t2 => handleQuizAnswer st i t1 t2
  | ChatEvent.reset t => resetChat st t

/-- Run a session: a sequence of events applied in order. -/
def runChat (st : ChatState) (es : List ChatEvent) : ChatState :=
  es.foldl stepChat st

/-- The last clock reading an event takes. -/
def eventEnd : ChatEvent → Nat
  | ChatEvent.send _ _ t2 => t2
  | ChatEvent.quick _ t => t
  | ChatEvent.answer _ _ t2 => t2
  | ChatEvent.reset t => t

/-- The clock readings of one event are in order and start no earlier than
`c`. -/
def eventOrdered (c : Nat) : ChatEvent → Prop
  | ChatEvent.send _ t1 t2 => c ≤ t1 ∧ t1 ≤ t2
  | ChatEvent.quick _ t => c ≤ t
  | ChatEvent.answer _ t1 t2 => c ≤ t1 ∧ t1 ≤ t2
  | ChatEvent.reset t => c ≤ t

/-- The clock readings across a whole event sequence are non-decreasing,
starting no earlier than `c` — what successive `Date.now()` calls deliver. -/
def ClockedFrom (c : Nat) : List ChatEvent → Prop
  | [] => True
  | e :: es => eventOrdered c e ∧ ClockedFrom (eventEnd e) es

/-- The last clock reading of a run (`c` when the run is empty). -/
def runEnd (c : Nat) : List ChatEvent → Nat
  | [] => c
  | e :: es => runEnd (eventEnd e) es

/- The mock analytics component (`AIAnalytics`): `handleAnalysis` and
`generateMockResults`.  JS numbers here are the literal decimals of the
source, modelled as rationals. -/

structure ConfidenceInterval where
  lower : ℚ
  upper : ℚ
  confidenceLevel : ℚ
deriving DecidableEq

structure CategoryPrediction where
  category : String
  predicted : ℚ
  confidence : ℚ
deriving DecidableEq

structure SpendingPrediction where
  predictionType : String
  nextMonthPrediction : ℚ
  confidenceInterval : ConfidenceInterval
  categoryPredictions : List CategoryPrediction
deriving DecidableEq

structure HorizonProjection where
  horizon : String
  futureValue : ℚ
  totalContributions : ℚ
  interestEarned : ℚ
  growthMultiplier : ℚ
deriving DecidableEq

structure SavingsPrediction where
  predictionType : String
  currentSavings : ℚ
  monthlyContribution : ℚ
  expectedAnnualReturn : ℚ
  predictions : List HorizonProjection
deriving DecidableEq

structure AIInsight where
  type : String
  title : String
  description : String
  insights : List String
  priority : String
  aiGenerated : Bool
deriving DecidableEq

/-- The result object of `generateMockResults`.  The non-comprehensive branch
returns only the base fields; its absent JS fields are `none` / `[]` here. -/
structure AnalysisResults where
  timestamp : Nat
  analysisType : String
  userId : String
  aiInsights : List AIInsight
  spendingPrediction : Option SpendingPrediction
  savingsPrediction : Option SavingsPrediction
deriving DecidableEq

/-- `generateMockResults` (AIAnalytics component): fixed literal payload for
the comprehensive analysis, base fields only otherwise.  `now` is the
`new Date().toISOString()` timestamp. -/
def generateMockResults (analysisType : String) (now : Nat) : AnalysisResults :=
  let base : AnalysisResults :=
    { timestamp := now
      analysisType := analysisType
      userId := "user_123"
      aiInsights := []
      spendingPrediction := none
      savingsPrediction := none }
  if analysisType = "comprehensive" then
    { base with
      aiInsights :=
        [⟨"ai_spending_insight", "AI-Powered Spending Analysis",
          "Advanced analysis of your spending patterns using AI algorithms",
          ["Your top spending category Housing represents 45.2% of total spending. Consider diversifying expenses.",
           "Your spending is concentrated in few categories. Consider diversifying for better financial health."],
          "high", true⟩,
         ⟨"ai_savings_insight", "AI-Powered Savings Analysis",
          "Intelligent analysis of your savings behavior and optimization opportunities",
          ["Good savings rate! AI suggests increasing to 30% for better financial security and faster goal achievement."],
          "medium", true⟩]
      spendingPrediction := some
        { predictionType := "spending_patterns"
          nextMonthPrediction := 1850.50
          confidenceInterval := ⟨1650.25, 2050.75, 0.95⟩
          categoryPredictions :=
            [⟨"Housing", 1200, 0.92⟩, ⟨"Food", 450, 0.88⟩, ⟨"Transportation", 200, 0.85⟩] }
      savingsPrediction := some
        { predictionType := "savings_growth"
          currentSavings := 15000
          monthlyContribution := 800
          expectedAnnualReturn := 0.07
          predictions :=
            [⟨"1_years", 25800, 9600, 1200, 1.72⟩,
             ⟨"5_years", 65000, 48000, 2000, 4.33⟩] } }
  else base

/-- The toast notice shown when `handleAnalysis` finishes. -/
inductive Toast where
  | success (msg : String)
  | error (msg : String)
deriving DecidableEq

/-- The `AIAnalytics` component state hooks touched by `handleAnalysis`. -/
structure AnalyticsState where
  isAnalyzing : Bool
  analysisResults : Option AnalysisResults
deriving DecidableEq

/-- `handleAnalysis` (AIAnalytics component): set the spinner flag, await the
simulated 3-second delay, store the freshly generated mock results and toast
success; if the delay step rejects (`delayOk = false`), toast the generic
error and store nothing; the `finally` clause clears the spinner flag on both
paths. -/
def handleAnalysis (st : AnalyticsState) (analysisType : String) (delayOk : Bool) (now : Nat) :
    AnalyticsState × Toast :=
  if delayOk then
    ({ st with isAnalyzing := false, analysisResults := some (generateMockResults analysisType now) },
     Toast.success "AI Analysis completed successfully!")
  else
    ({ st with isAnalyzing := false },
     Toast.error "Analysis failed. Please try again.")

/- Invariant of the quiz session state. -/

/-- Inductive invariant tying the quiz fields together: an active quiz holds
the 5-question bank, its index stays below the bank size, the score never
exceeds the number of questions already answered, and the score never exceeds
the bank size. -/
def QuizInv (st : ChatState) : Prop :=
  (∀ cq, st.currentQuiz = some cq →
      cq.questions = quizQuestions ∧
      cq.currentQuestion < quizQuestions.length ∧
      st.quizScore ≤ cq.currentQuestion) ∧
  st.quizScore ≤ quizQuestions.length

theorem handleSendMessage_quiz_fields (st : ChatState) (m : String) (t1 t2 : Nat) :
    (handleSendMessage st m t1 t2).currentQuiz = st.currentQuiz ∧
    (handleSendMessage st m t1 t2).quizScore = st.quizScore ∧
    (handleSendMessage st m t1 t2).showResults = st.showResults := by
  unfold handleSendMessage addMessage
  split <;> exact ⟨rfl, rfl, rfl⟩

theorem handleQuickAction_quiz_fields (st : ChatState) (a : String) (t : Nat) :
    (handleQuickAction st a t).currentQuiz
      = (if a = "quiz" then some ⟨0, quizQuestions, []⟩ else none) ∧
    (handleQuickAction st a t).quizScore = (if a = "quiz" then 0 else st.quizScore) ∧
    (handleQuickAction st a t).showResults = false := by
  unfold handleQuickAction addMessage startQuiz
  by_cases ha : a = "quiz" <;> simp [ha]

/-- `handleQuizAnswer` on a non-final question: the session advances by one
question, the results flag is untouched, and the score grows by 1 exactly on
the correct option index. -/
theorem handleQuizAnswer_advance (st : ChatState) (cq : CurrentQuiz) (i t1 t2 : Nat)
    (hq : st.currentQuiz = some cq) (hlt : cq.currentQuestion < cq.questions.length - 1) :
    (handleQuizAnswer st i t1 t2).currentQuiz
      = some ⟨cq.currentQuestion + 1, cq.questions, cq.answers⟩ ∧
    (handleQuizAnswer st i t1 t2).showResults = st.showResults ∧
    (handleQuizAnswer st i t1 t2).quizScore
      = (if i = (cq.questions.getD cq.currentQuestion dummyQuestion).correct
         then st.quizScore + 1 else st.quizScore) := by
  unfold handleQuizAnswer addMessage
  rw [hq]
  simp only [hlt, if_true, beq_iff_eq]
  exact ⟨trivial, trivial, trivial⟩

/-- `handleQuizAnswer` on the final question: the session completes (quiz
cleared, results flag set) and the score grows by 1 exactly on the correct
option index. -/
theorem handleQuizAnswer_complete (st : ChatState) (cq : CurrentQuiz) (i t1 t2 : Nat)
    (hq : st.currentQuiz = some cq) (hge : ¬ cq.currentQuestion < cq.questions.length - 1) :
    (handleQuizAnswer st i t1 t2).currentQuiz = none ∧
    (handleQuizAnswer st i t1 t2).showResults = true ∧
    (handleQuizAnswer st i t1 t2).quizScore
      = (if i = (cq.questions.getD cq.currentQuestion dummyQuestion).correct
         then st.quizScore + 1 else st.quizScore) := by
  unfold handleQuizAnswer showResultsStep addMessage
  rw [hq]
  simp only [hge, if_false, beq_iff_eq]
  exact ⟨trivial, trivial, trivial⟩

theorem quizInv_reachable {st : ChatState} (h : Reachable st) : QuizInv st := by
  induction h with
  | init t0 =>
      refine ⟨fun cq hcq => by simp [initState] at hcq, ?_⟩
      simp [initState]
  | send st m t1 t2 _ ih =>
      obtain ⟨hq, hs, -⟩ := handleSendMessage_quiz_fields st m t1 t2
      exact ⟨fun cq hcq => by rw [hs]; exact ih.1 cq (by rwa [hq] at hcq),
             by rw [hs]; exact ih.2⟩
  | quick st a t _ ih =>
      obtain ⟨hq, hs, -⟩ := handleQuickAction_quiz_fields st a t
      by_cases ha : a = "quiz"
      · rw [if_pos ha] at hq
        rw [if_pos ha] at hs
        refine ⟨fun cq hcq => ?_, ?_⟩
        · rw [hq] at hcq
          injection hcq with hcq
          subst hcq
          exact ⟨rfl, by decide, by rw [hs]⟩
        · rw [hs]; exact Nat.zero_le _
      · rw [if_neg ha] at hq
        rw [if_neg ha] at hs
        exact ⟨fun cq hcq => (by rw [hq] at hcq; cases hcq), (by rw [hs]; exact ih.2)⟩
  | answer st i t1 t2 _ ih =>
      cases hcq : st.currentQuiz with
      | none => simpa [handleQuizAnswer, hcq] using ih
      | some cq =>
          obtain ⟨hqs, hlt, hsc⟩ := ih.1 cq hcq
          by_cases hb : cq.currentQuestion < cq.questions.length - 1
          · obtain ⟨hq, -, hs⟩ := handleQuizAnswer_advance st cq i t1 t2 hcq hb
            rw [hqs] at hb
            refine ⟨fun cq' hcq' => ?_, ?_⟩
            · rw [hq] at hcq'
              injection hcq' with hcq'
              subst hcq'
              refine ⟨hqs, by show cq.currentQuestion + 1 < quizQuestions.length; omega, ?_⟩
              show (handleQuizAnswer st i t1 t2).quizScore ≤ cq.currentQuestion + 1
              rw [hs]; split <;> omega
            · rw [hs]; split <;> omega
          · obtain ⟨hq, -, hs⟩ := handleQuizAnswer_complete st cq i t1 t2 hcq hb
            refine ⟨fun cq' hcq' => (by rw [hq] at hcq'; cases hcq'), ?_⟩
            rw [hs]; split <;> omega
  | reset st t _ ih =>
      exact ⟨fun cq hcq => by simp [resetChat] at hcq, by simpa [resetChat] using ih.2⟩

/-- Running a block of answers from an in-progress session whose remaining
question count equals the number of answers completes the session and adds at
most one point per answer. -/
theorem runQuiz_completes (answers : List (Nat × Nat × Nat)) :
    ∀ (st : ChatState) (cq : CurrentQuiz), st.currentQuiz = some cq →
      cq.questions = quizQuestions →
      cq.currentQuestion + answers.length = quizQuestions.length →
      answers ≠ [] →
      (runQuiz st answers).currentQuiz = none ∧
      (runQuiz st answers).showResults = true ∧
      (runQuiz st answers).quizScore ≤ st.quizScore + answers.length := by
  induction answers with
  | nil => intro st cq _ _ _ hne; exact absurd rfl hne
  | cons a rest ih =>
      intro st cq hq hqs hlen _
      have hstep : runQuiz st (a :: rest) = runQuiz (handleQuizAnswer st a.1 a.2.1 a.2.2) rest := rfl
      rw [hstep]
      cases rest with
      | nil =>
          have hfin : ¬ cq.currentQuestion < cq.questions.length - 1 := by
            rw [hqs]; simp only [List.length_cons, List.length_nil] at hlen; omega
          obtain ⟨hq', hs', hsc'⟩ := handleQuizAnswer_complete st cq a.1 a.2.1 a.2.2 hq hfin
          simp only [runQuiz, List.foldl_nil]
          refine ⟨hq', hs', ?_⟩
          rw [hsc']
          simp only [List.length_cons, List.length_nil]
          split <;> omega
      | cons b rest' =>
          have hadv : cq.currentQuestion < cq.questions.length - 1 := by
            rw [hqs]; simp only [List.length_cons] at hlen ⊢; omega
          obtain ⟨hq', hs', hsc'⟩ := handleQuizAnswer_advance st cq a.1 a.2.1 a.2.2 hq hadv
          have hres := ih (handleQuizAnswer st a.1 a.2.1 a.2.2)
            ⟨cq.currentQuestion + 1, cq.questions, cq.answers⟩ hq' hqs
            (by simp only [List.length_cons] at hlen ⊢; omega) (by simp)
          refine ⟨hres.1, hres.2.1, ?_⟩
          refine le_trans hres.2.2 ?_
          rw [hsc']
          simp only [List.length_cons]
          split <;> omega

/- The id stream of the conversation log across whole sessions. -/

theorem pairwise_le_append_one (l : List Nat) (c t : Nat)
    (hmono : List.Pairwise (fun a b => a ≤ b) l) (hub : ∀ x ∈ l, x ≤ c) (h1 : c ≤ t) :
    List.Pairwise (fun a b => a ≤ b) (l ++ [t]) ∧ ∀ x ∈ l ++ [t], x ≤ t := by
  constructor
  · rw [List.pairwise_append]
    refine ⟨hmono, by simp, ?_⟩
    intro a ha b hb
    simp at hb
    subst hb
    exact le_trans (hub a ha) h1
  · intro x hx
    rw [List.mem_append] at hx
    rcases hx with hx | hx
    · exact le_trans (hub x hx) h1
    · simp at hx
      subst hx
      exact le_refl _

theorem pairwise_le_append_two (l : List Nat) (c t1 t2 : Nat)
    (hmono : List.Pairwise (fun a b => a ≤ b) l) (hub : ∀ x ∈ l, x ≤ c)
    (h1 : c ≤ t1) (h2 : t1 ≤ t2) :
    List.Pairwise (fun a b => a ≤ b) (l ++ [t1, t2]) ∧ ∀ x ∈ l ++ [t1, t2], x ≤ t2 := by
  have step1 := pairwise_le_append_one l c t1 hmono hub h1
  have step2 := pairwise_le_append_one (l ++ [t1]) t1 t2 step1.1 step1.2 h2
  rw [List.append_assoc] at step2
  exact step2

/-- The ids appended by `handleSendMessage`: none on empty trimmed input, the
two clock readings otherwise. -/
theorem handleSendMessage_ids (st : ChatState) (m : String) (t1 t2 : Nat) :
    (handleSendMessage st m t1 t2).messages.map Message.id
      = st.messages.map Message.id ++ (if trimString m = "" then [] else [t1, t2]) := by
  unfold handleSendMessage addMessage
  split <;> simp

/-- `handleQuickAction` appends exactly one message, at its clock reading. -/
theorem handleQuickAction_ids (st : ChatState) (a : String) (t : Nat) :
    (handleQuickAction st a t).messages.map Message.id
      = st.messages.map Message.id ++ [t] := by
  unfold handleQuickAction addMessage startQuiz
  by_cases ha : a = "quiz" <;> simp [ha]

/-- With no active quiz, `handleQuizAnswer` appends nothing. -/
theorem handleQuizAnswer_ids_none (st : ChatState) (i t1 t2 : Nat)
    (h : st.currentQuiz = none) :
    (handleQuizAnswer st i t1 t2).messages.map Message.id
      = st.messages.map Message.id := by
  unfold handleQuizAnswer
  rw [h]

/-- With an active quiz, `handleQuizAnswer` appends exactly two messages (the
explanation, then the delayed next-question or summary), at its two clock
readings. -/
theorem handleQuizAnswer_ids_some (st : ChatState) (cq : CurrentQuiz) (i t1 t2 : Nat)
    (h : st.currentQuiz = some cq) :
    (handleQuizAnswer st i t1 t2).messages.map Message.id
      = st.messages.map Message.id ++ [t1, t2] := by
  unfold handleQuizAnswer showResultsStep addMessage
  rw [h]
  simp only [beq_iff_eq]
  split <;> simp

/-- `resetChat` replaces the log by the two greeting messages, ids 1 and 2. -/
theorem resetChat_ids (st : ChatState) (t : Nat) :
    (resetChat st t).messages.map Message.id = [1, 2] := rfl

/-- One event keeps the id stream non-decreasing and bounded by its last clock
reading, provided the log ids are bounded by the clock floor `c ≥ 2` (2 being
the larger hardcoded greeting id) and the event\x27s readings start at `c`. -/
theorem stepChat_ids (st : ChatState) (e : ChatEvent) (c : Nat)
    (hmono : List.Pairwise (fun a b => a ≤ b) (st.messages.map Message.id))
    (hub : ∀ x ∈ st.messages.map Message.id, x ≤ c)
    (hc : 2 ≤ c) (hord : eventOrdered c e) :
    List.Pairwise (fun a b => a ≤ b) ((stepChat st e).messages.map Message.id) ∧
    (∀ x ∈ (stepChat st e).messages.map Message.id, x ≤ eventEnd e) ∧
    2 ≤ eventEnd e := by
  cases e with
  | send m t1 t2 =>
      obtain ⟨h1, h2⟩ := hord
      simp only [stepChat, eventEnd]
      rw [handleSendMessage_ids]
      split
      · simp only [List.append_nil]
        exact ⟨hmono, fun x hx => le_trans (hub x hx) (le_trans h1 h2),
               le_trans hc (le_trans h1 h2)⟩
      · obtain ⟨hp, hb⟩ := pairwise_le_append_two _ c t1 t2 hmono hub h1 h2
        exact ⟨hp, hb, le_trans hc (le_trans h1 h2)⟩
  | quick a t =>
      have h1 : c ≤ t := hord
      simp only [stepChat, eventEnd]
      rw [handleQuickAction_ids]
      obtain ⟨hp, hb⟩ := pairwise_le_append_one _ c t hmono hub h1
      exact ⟨hp, hb, le_trans hc h1⟩
  | answer i t1 t2 =>
      obtain ⟨h1, h2⟩ := hord
      simp only [stepChat, eventEnd]
      cases hcq : st.currentQuiz with
      | none =>
          rw [handleQuizAnswer_ids_none st i t1 t2 hcq]
          exact ⟨hmono, fun x hx => le_trans (hub x hx) (le_trans h1 h2),
                 le_trans hc (le_trans h1 h2)⟩
      | some cq =>
          rw [handleQuizAnswer_ids_some st cq i t1 t2 hcq]
          obtain ⟨hp, hb⟩ := pairwise_le_append_two _ c t1 t2 hmono hub h1 h2
          exact ⟨hp, hb, le_trans hc (le_trans h1 h2)⟩
  | reset t =>
      have h1 : c ≤ t := hord
      simp only [stepChat, eventEnd]
      rw [resetChat_ids]
      refine ⟨by simp, ?_, le_trans hc h1⟩
      intro x hx
      simp at hx
      rcases hx with rfl | rfl
      · omega
      · omega

/-- Along any clocked event sequence, the id stream of the log stays
non-decreasing and bounded by the last clock reading. -/
theorem chat_run_ids (es : List ChatEvent) :
    ∀ (st : ChatState) (c : Nat),
      List.Pairwise (fun a b => a ≤ b) (st.messages.map Message.id) →
      (∀ x ∈ st.messages.map Message.id, x ≤ c) →
      2 ≤ c → ClockedFrom c es →
      List.Pairwise (fun a b => a ≤ b) ((runChat st es).messages.map Message.id) ∧
      ∀ x ∈ (runChat st es).messages.map Message.id, x ≤ runEnd c es := by
  induction es with
  | nil => exact fun st c hmono hub _ _ => ⟨hmono, hub⟩
  | cons e es ih =>
      intro st c hmono hub hc hclk
      simp only [ClockedFrom] at hclk
      obtain ⟨hord, hclk⟩ := hclk
      obtain ⟨hp, hb, h2e⟩ := stepChat_ids st e c hmono hub hc hord
      exact ih (stepChat st e) (eventEnd e) hp hb h2e hclk

/- Claim theorems. -/

/-- C1: the advisor response function lower-cases its input, scans the rule
table in declaration order (savings/save, budget/spending, invest/investment,
debt/credit, retirement/401k), returns the first matching rule\x27s template,
and the fallback template when no keyword occurs as a substring. -/
theorem generateAIResponse_eq_rule_scan (m : String) :
    generateAIResponse m = handleUserMessageSpec m := by
  simp only [generateAIResponse, handleUserMessageSpec, responseRules, firstMatch,
    List.any_cons, List.any_nil, Bool.or_false]

/-- C2: for a session in progress, submitting the answer index equal to the
current question\x27s correct index increments the score by exactly 1 and any
other index leaves the score unchanged; in both cases the session\x27s question
index advances by 1 (completion of the last question putting the session at
index = question count, per the spec\x27s state machine). -/
theorem submitAnswer_score_and_index (st : ChatState) (cq : CurrentQuiz) (i t1 t2 : Nat)
    (hq : st.currentQuiz = some cq) (hqs : cq.questions = quizQuestions)
    (hidx : cq.currentQuestion < quizQuestions.length) :
    ((i = (quizQuestions.getD cq.currentQuestion dummyQuestion).correct →
        (handleQuizAnswer st i t1 t2).quizScore = st.quizScore + 1) ∧
     (i ≠ (quizQuestions.getD cq.currentQuestion dummyQuestion).correct →
        (handleQuizAnswer st i t1 t2).quizScore = st.quizScore)) ∧
    sessionIndex (handleQuizAnswer st i t1 t2) = sessionIndex st + 1 := by
  have hsx : sessionIndex st = cq.currentQuestion := by
    unfold sessionIndex; rw [hq]
  by_cases hb : cq.currentQuestion < cq.questions.length - 1
  · obtain ⟨hq', -, hs'⟩ := handleQuizAnswer_advance st cq i t1 t2 hq hb
    rw [hqs] at hs'
    refine ⟨⟨fun hc => by rw [hs', if_pos hc], fun hc => by rw [hs', if_neg hc]⟩, ?_⟩
    have hL : sessionIndex (handleQuizAnswer st i t1 t2) = cq.currentQuestion + 1 := by
      unfold sessionIndex; rw [hq']
    rw [hL, hsx]
  · obtain ⟨hq', hr', hs'⟩ := handleQuizAnswer_complete st cq i t1 t2 hq hb
    rw [hqs] at hs' hb
    refine ⟨⟨fun hc => by rw [hs', if_pos hc], fun hc => by rw [hs', if_neg hc]⟩, ?_⟩
    have hL : sessionIndex (handleQuizAnswer st i t1 t2) = quizQuestions.length := by
      unfold sessionIndex; rw [hq', hr']; simp
    rw [hL, hsx]
    omega

/-- Witness for C2 at the first question of a fresh session: option 0 is the
correct index of question 1, option 1 is not. -/
theorem submitAnswer_score_and_index_witness :
    (((0 = (quizQuestions.getD 0 dummyQuestion).correct →
        (handleQuizAnswer (startQuiz (initState 0)) 0 3 4).quizScore
          = (startQuiz (initState 0)).quizScore + 1) ∧
      (0 ≠ (quizQuestions.getD 0 dummyQuestion).correct →
        (handleQuizAnswer (startQuiz (initState 0)) 0 3 4).quizScore
          = (startQuiz (initState 0)).quizScore)) ∧
     sessionIndex (handleQuizAnswer (startQuiz (initState 0)) 0 3 4)
       = sessionIndex (startQuiz (initState 0)) + 1) ∧
    ((handleQuizAnswer (startQuiz (initState 0)) 0 3 4).quizScore = 1 ∧
     (handleQuizAnswer (startQuiz (initState 0)) 1 3 4).quizScore = 0) :=
  ⟨submitAnswer_score_and_index (startQuiz (initState 0)) ⟨0, quizQuestions, []⟩ 0 3 4
      rfl rfl (by decide),
   by decide, by decide⟩

/-- C3: a session started by `startQuiz` is completed after exactly 5 answer
submissions with a final score of at most 5; and in every reachable component
state the session index is at most 5 and the score at most 5. -/
theorem quiz_completes_after_five_answers :
    (∀ st : ChatState, Reachable st →
      sessionIndex st ≤ quizQuestions.length ∧ st.quizScore ≤ quizQuestions.length) ∧
    (∀ (st : ChatState) (answers : List (Nat × Nat × Nat)), answers.length = 5 →
      (runQuiz (startQuiz st) answers).currentQuiz = none ∧
      (runQuiz (startQuiz st) answers).showResults = true ∧
      (runQuiz (startQuiz st) answers).quizScore ≤ 5) := by
  constructor
  · intro st hr
    obtain ⟨h1, h2⟩ := quizInv_reachable hr
    refine ⟨?_, h2⟩
    unfold sessionIndex
    cases hcq : st.currentQuiz with
    | none =>
        show (if st.showResults = true then quizQuestions.length else 0) ≤ quizQuestions.length
        split <;> omega
    | some cq =>
        exact Nat.le_of_lt (h1 cq hcq).2.1
  · intro st answers hlen
    have h := runQuiz_completes answers (startQuiz st) ⟨0, quizQuestions, []⟩ rfl rfl
      (by rw [hlen]; decide) (by intro h; rw [h] at hlen; cases hlen)
    refine ⟨h.1, h.2.1, ?_⟩
    refine le_trans h.2.2 ?_
    rw [hlen]
    show (startQuiz st).quizScore + 5 ≤ 5
    simp [startQuiz]

/-- Witness for C3: the initial state, and a concrete 5-answer run. -/
theorem quiz_completes_after_five_answers_witness :
    (sessionIndex (initState 0) ≤ quizQuestions.length ∧
     (initState 0).quizScore ≤ quizQuestions.length) ∧
    ((runQuiz (startQuiz (initState 0)) [(0, 1, 2), (2, 3, 4), (1, 5, 6), (3, 7, 8), (1, 9, 10)]).currentQuiz = none ∧
     (runQuiz (startQuiz (initState 0)) [(0, 1, 2), (2, 3, 4), (1, 5, 6), (3, 7, 8), (1, 9, 10)]).showResults = true ∧
     (runQuiz (startQuiz (initState 0)) [(0, 1, 2), (2, 3, 4), (1, 5, 6), (3, 7, 8), (1, 9, 10)]).quizScore ≤ 5) :=
  ⟨quiz_completes_after_five_answers.1 (initState 0) (Reachable.init 0),
   quiz_completes_after_five_answers.2 (initState 0)
     [(0, 1, 2), (2, 3, 4), (1, 5, 6), (3, 7, 8), (1, 9, 10)] rfl⟩

/-- C4: the tier of the quiz summary is a pure function of the percentage,
with inclusive lower bounds: 80-100 the expert tier text, 60-79 the
intermediate tier text, 0-59 the beginner tier text; the summary message is
that tier function applied to the percentage of the score. -/
theorem tier_pure_function_of_percentage (p : Nat) (hp : p ≤ 100) :
    ((80 ≤ p → tierText p = expertTierText) ∧
     (60 ≤ p → p < 80 → tierText p = intermediateTierText) ∧
     (p < 60 → tierText p = beginnerTierText)) ∧
    (∀ s : Nat, resultMessage s =
      tierOpening (s * 100 / quizQuestions.length)
        ++ scoreText s (s * 100 / quizQuestions.length)
        ++ tierText (s * 100 / quizQuestions.length)) := by
  refine ⟨⟨fun h => ?_, fun h1 h2 => ?_, fun h => ?_⟩, fun s => rfl⟩
  · unfold tierText; rw [if_pos h]
  · unfold tierText; rw [if_neg (by omega), if_pos h1]
  · unfold tierText; rw [if_neg (by omega), if_neg (by omega)]

/-- Witness for C4 at the three boundary percentages 80, 60 and 59. -/
theorem tier_pure_function_of_percentage_witness :
    tierText 80 = expertTierText ∧ tierText 60 = intermediateTierText ∧
    tierText 59 = beginnerTierText ∧
    resultMessage 4 = tierOpening (4 * 100 / quizQuestions.length)
      ++ scoreText 4 (4 * 100 / quizQuestions.length)
      ++ tierText (4 * 100 / quizQuestions.length) :=
  ⟨(tier_pure_function_of_percentage 80 (by decide)).1.1 (by decide),
   (tier_pure_function_of_percentage 60 (by decide)).1.2.1 (by decide) (by decide),
   (tier_pure_function_of_percentage 59 (by decide)).1.2.2 (by decide),
   (tier_pure_function_of_percentage 0 (by decide)).2 4⟩

/-- C7: `startQuiz` always produces a session at question index 0 with score
0 and a cleared results flag, whatever the prior state (in particular after a
completed session). -/
theorem startQuiz_resets (st : ChatState) :
    (startQuiz st).currentQuiz = some ⟨0, quizQuestions, []⟩ ∧
    (startQuiz st).quizScore = 0 ∧
    (startQuiz st).showResults = false ∧
    sessionIndex (startQuiz st) = 0 := by
  exact ⟨rfl, rfl, rfl, rfl⟩

/-- C8: when the simulated delay step of the analysis fails, the generic error
toast is shown and the stored results are unchanged; on success the results
are replaced by the freshly generated mock result object and the success toast
is shown. -/
theorem handleAnalysis_error_preserves_results (st : AnalyticsState) (k : String) (now : Nat) :
    (handleAnalysis st k false now).1.analysisResults = st.analysisResults ∧
    (handleAnalysis st k false now).2 = Toast.error "Analysis failed. Please try again." ∧
    (handleAnalysis st k true now).1.analysisResults = some (generateMockResults k now) ∧
    (handleAnalysis st k true now).2 = Toast.success "AI Analysis completed successfully!" := by
  exact ⟨rfl, rfl, rfl, rfl⟩

/-- C10: an answer submission while no quiz is active is a complete no-op:
the whole component state, in particular the conversation log, the score and
the quiz state, is unchanged. -/
theorem submitAnswer_noop_without_quiz (st : ChatState) (i t1 t2 : Nat)
    (h : st.currentQuiz = none) :
    handleQuizAnswer st i t1 t2 = st := by
  unfold handleQuizAnswer
  rw [h]

/-- Witness for C10: submitting an answer in the initial state (quiz never
started) changes nothing. -/
theorem submitAnswer_noop_without_quiz_witness :
    handleQuizAnswer (initState 0) 2 5 6 = initState 0 :=
  submitAnswer_noop_without_quiz (initState 0) 2 5 6 rfl

/-- C6: the advisor reply appended by `handleSendMessage` is the pure function
`generateAIResponse` of the trimmed input alone — identical for any two prior
component states and any clock values — and the function is total, always
producing one of the six fixed templates. -/
theorem advisor_response_pure_and_total (s1 s2 : ChatState) (m : String) (t1 t2 u1 u2 : Nat)
    (hm : trimString m ≠ "") :
    ((handleSendMessage s1 m t1 t2).messages.getLast?).map Message.content
      = some (generateAIResponse (trimString m)) ∧
    ((handleSendMessage s1 m t1 t2).messages.getLast?).map Message.content
      = ((handleSendMessage s2 m u1 u2).messages.getLast?).map Message.content ∧
    generateAIResponse (trimString m) ∈
      [savingsTemplate, budgetTemplate, investTemplate, debtTemplate, retirementTemplate,
       fallbackTemplate] := by
  have key : ∀ (s : ChatState) (ta tb : Nat),
      ((handleSendMessage s m ta tb).messages.getLast?).map Message.content
        = some (generateAIResponse (trimString m)) := by
    intro s ta tb
    unfold handleSendMessage addMessage
    rw [if_neg hm]
    simp only
    rw [List.getLast?_concat]
    rfl
  refine ⟨key s1 t1 t2, by rw [key s1 t1 t2, key s2 u1 u2], ?_⟩
  simp only [generateAIResponse]
  split
  · simp
  split
  · simp
  split
  · simp
  split
  · simp
  split
  · simp
  · simp

/-- Witness for C6: the same input sent from two different states (freshly
mounted, and mid-quiz) at different clock times produces the same reply, one
of the six templates. -/
theorem advisor_response_pure_and_total_witness :
    (((handleSendMessage (initState 0) "hi" 7 8).messages.getLast?).map Message.content
      = some (generateAIResponse (trimString "hi")) ∧
     ((handleSendMessage (initState 0) "hi" 7 8).messages.getLast?).map Message.content
      = ((handleSendMessage (startQuiz (initState 3)) "hi" 11 12).messages.getLast?).map Message.content ∧
     generateAIResponse (trimString "hi") ∈
      [savingsTemplate, budgetTemplate, investTemplate, debtTemplate, retirementTemplate,
       fallbackTemplate]) :=
  advisor_response_pure_and_total (initState 0) (startQuiz (initState 3)) "hi" 7 8 11 12
    (by decide)

/-- C9 as stated is refuted on the code: message ids come from `Date.now()`,
so a user message and the advisor reply handled within the same clock
millisecond receive the same id — ids are not strictly increasing in creation
order. -/
theorem message_ids_not_strictly_monotonic :
    ¬ List.Pairwise (fun a b => a < b)
        ((handleSendMessage (initState 0) "hi" 100 100).messages.map Message.id) := by
  have hids : (handleSendMessage (initState 0) "hi" 100 100).messages.map Message.id
      = [1, 2, 100, 100] := by decide
  rw [hids]
  decide

/-- C9 amended: within one session — the component mounted at any time, then
any sequence of sends, quick actions, quiz answers and resets whose
`Date.now()` readings are non-decreasing and at least 2 (2 is the larger of
the two hardcoded greeting ids; real clock readings are far larger) — the ids
of the conversation log are non-decreasing in creation order: every message
appended later carries an id greater than or equal to that of every earlier
message.  Equality does occur: two messages created within the same clock
millisecond share an id. -/
theorem message_ids_nondecreasing (t0 c : Nat) (es : List ChatEvent)
    (hc : 2 ≤ c) (hclk : ClockedFrom c es) :
    List.Pairwise (fun a b => a ≤ b)
      ((runChat (initState t0) es).messages.map Message.id) := by
  refine (chat_run_ids es (initState t0) c ?_ ?_ hc hclk).1
  · show List.Pairwise (fun a b => a ≤ b) [1, 2]
    decide
  · intro x hx
    have hx2 : x = 1 ∨ x = 2 := by
      simpa [initState, initialMessages] using hx
    omega

/-- Witness for C9\x27s amended statement: a full session from mount — starting
a quiz, answering its 5 questions, sending a message whose two clock readings
coincide, resetting the chat, then sending another message. -/
theorem message_ids_nondecreasing_witness :
    List.Pairwise (fun a b => a ≤ b)
      ((runChat (initState 0)
        [ChatEvent.quick "quiz" 10, ChatEvent.answer 0 11 12, ChatEvent.answer 1 13 14,
         ChatEvent.answer 1 15 16, ChatEvent.answer 1 17 18, ChatEvent.answer 1 19 20,
         ChatEvent.send "hi" 21 21, ChatEvent.reset 22,
         ChatEvent.send "save money" 23 24]).messages.map Message.id) :=
  message_ids_nondecreasing 0 2
    [ChatEvent.quick "quiz" 10, ChatEvent.answer 0 11 12, ChatEvent.answer 1 13 14,
     ChatEvent.answer 1 15 16, ChatEvent.answer 1 17 18, ChatEvent.answer 1 19 20,
     ChatEvent.send "hi" 21 21, ChatEvent.reset 22,
     ChatEvent.send "save money" 23 24]
    (by decide)
    (by simp [ClockedFrom, eventOrdered, eventEnd])

set_option maxRecDepth 100000

/-- C5 is refuted on the code: after a run of all 5 questions answered with
the correct index, the completion summary message — emitted by the
`showQuizResults` closure that the final `handleQuizAnswer` scheduled, which
reads the pre-increment score value 4 of its defining render — states
4/5 (80%), not 5/5 (100%), even though the live score state is 5.  The 80%
stale percentage still selects the expert tier text.  (The source also
declares `showQuizResults` twice, as the state flag of line 28 and the
function of line 206, a duplicate-binding error in itself.) -/
theorem all_correct_run_summary_shows_stale_score :
    ((runQuiz (startQuiz (initState 0)) [(0, 1, 2), (1, 3, 4), (1, 5, 6), (1, 7, 8), (1, 9, 10)]).messages.getLast?).map Message.content
      = some (resultMessage 4) ∧
    (runQuiz (startQuiz (initState 0)) [(0, 1, 2), (1, 3, 4), (1, 5, 6), (1, 7, 8), (1, 9, 10)]).quizScore = 5 ∧
    includes (resultMessage 4) "4/5 (80%)" = true ∧
    includes (resultMessage 4) "5/5 (100%)" = false ∧
    includes (resultMessage 4) expertTierText = true ∧
    includes (resultMessage 5) "5/5 (100%)" = true := by
  exact ⟨by decide, by decide, by decide, by decide, by decide, by decide⟩

end PFChat
